import Mathlib

/-!
Verification of the LLMBooster batch-inference core.

The development shallowly embeds `parallel_inference.py` (class
`ParallelAIUtilities`) and `inference.py` (class `AIUtilities`).  Network
effects are made explicit: the contents of the per-provider results file
(written by the external `process_api_requests_from_file`) and the outcome
of a single provider call are passed in as parameters, and whether the
dispatcher was invoked at all is recorded in a boolean.  JSON values are
modelled by an inductive type; Python truthiness of strings, options and
JSON values is modelled explicitly where the source relies on it.
-/

namespace LLMBooster

/-- JSON values, as produced by `json.loads` / consumed by `json.dump`.
Numbers are modelled as integers; no claim computes with a numeric payload,
they are only carried through. -/
inductive Json where
  | null
  | bool (b : Bool)
  | num (n : Int)
  | str (s : String)
  | arr (items : List Json)
  | obj (fields : List (String × Json))

/-- Field lookup in a JSON object (Python `d[k]` / key membership on the
dicts built by the source; the dict literals of the source have no duplicate
keys, so first-match lookup agrees with Python semantics). -/
def Json.lookup : Json → String → Option Json
  | Json.obj fields, k => (fields.find? (fun kv => kv.1 == k)).map (fun kv => kv.2)
  | _, _ => none

/-- Python truthiness of a JSON value (`if request:` on a decoded value). -/
def jsonTruthy : Json → Bool
  | Json.null => false
  | Json.bool b => b
  | Json.num n => n != 0
  | Json.str s => s != ""
  | Json.arr items => !items.isEmpty
  | Json.obj fields => !fields.isEmpty

/-- Python truthiness of an optional string (`if self.openai_key:` style
checks: `None` and the empty string are falsy). -/
def optStrTruthy : Option String → Bool
  | none => false
  | some s => s != ""

/-- Python `a or b` for a string falling back to an optional string
(`prompt.llm_config.model or self.anthropic_model`). -/
def modelOr (m : String) (fallback : Option String) : Option String :=
  if m == "" then fallback else some m

/-- The value placed under the `system` key by the single-request Anthropic
paths (`"system": system_content`, no truthiness check). -/
def systemFieldDirect : Option String → Json
  | some s => Json.str s
  | none => Json.null

/-- The value placed under the `system` key by the batch request builder
(`system_content if system_content else None`: falsy system text becomes
`None`). -/
def systemFieldTruthy : Option String → Json
  | some s => if s == "" then Json.null else Json.str s
  | none => Json.null

/-- Modelled from the spec: the external `models.LLMConfig` as used by the
source — provider identifier (`client`), model name, max output tokens and
temperature.  `temperature` is a float only carried through, modelled as an
opaque JSON payload. -/
structure LLMConfig where
  client : String
  model : String
  max_tokens : Nat
  temperature : Json

/-- Modelled from the spec: the external `models.StructuredTool` as used by
the source — schema name, description and JSON schema. -/
structure StructuredTool where
  schema_name : String
  schema_description : String
  json_schema : Json

/-- Modelled from the spec: the external `models.LLMPromptContext` as used by
the source.  The derived message shapes (`oai_messages`,
`anthropic_messages`, `oai_response_format`, `get_tool()`) are carried as
fields: the source only reads them.  `anthropic_messages` returns a pair
`(system_content, messages)`, split here into `anthropic_system` and
`anthropic_msgs`. -/
structure LLMPromptContext where
  llm_config : LLMConfig
  oai_messages : List Json
  oai_response_format : Json
  anthropic_system : Option String
  anthropic_msgs : List Json
  structured_output : Option StructuredTool
  tool : Option Json

/-- Modelled from the spec: the external `models.LLMOutput` as used by the
source — the raw provider response payload and the exact request parameters
used (the spec's NormalizedResult). -/
structure LLMOutput where
  raw_result : Json
  completion_kwargs : Json

/-- `RequestLimits` (parallel_inference.py): per-provider rate limits with
their pydantic defaults. -/
structure RequestLimits where
  max_requests_per_minute : Nat := 50
  max_tokens_per_minute : Nat := 100000
  provider : String := "openai"

/-- The external `OAIApiFromFileConfig` exactly as constructed by
`_create_config`. -/
structure OAIApiFromFileConfig where
  requests_filepath : String
  save_filepath : String
  request_url : String
  api_key : String
  max_requests_per_minute : Nat
  max_tokens_per_minute : Nat
  token_encoding_name : String
  max_attempts : Nat
  logging_level : Nat

/-- `ParallelAIUtilities` instance state: the two environment keys and the
two per-provider limits. -/
structure ParallelAIUtilities where
  openai_key : Option String
  anthropic_key : Option String
  oai_request_limits : RequestLimits := {}
  anthropic_request_limits : RequestLimits := { provider := "anthropic" }

/-- One line of a results file, after the `json.loads` attempt:
either a decoded JSON value or a `JSONDecodeError` carrying the raw line. -/
inductive ParsedLine where
  | json (v : Json)
  | decodeError (raw : String)

/-- `_convert_prompt_to_request`: the wire payload written to the requests
file for one prompt, or `None` for an unrecognized client. -/
def _convert_prompt_to_request (p : LLMPromptContext) (client : String) : Option Json :=
  if client == "openai" then
    some (Json.obj [
      ("model", Json.str p.llm_config.model),
      ("messages", Json.arr p.oai_messages),
      ("max_tokens", Json.num p.llm_config.max_tokens),
      ("temperature", p.llm_config.temperature)])
  else if client == "anthropic" then
    some (Json.obj [
      ("model", Json.str p.llm_config.model),
      ("max_tokens", Json.num p.llm_config.max_tokens),
      ("temperature", p.llm_config.temperature),
      ("messages", Json.arr p.anthropic_msgs),
      ("system", systemFieldTruthy p.anthropic_system)])
  else
    none

/-- `_prepare_requests_file`: the sequence of request lines written to the
requests file (a request is appended only if the conversion returned a
truthy value). -/
def _prepare_requests_file (prompts : List LLMPromptContext) (client : String) : List Json :=
  prompts.filterMap (fun p =>
    match _convert_prompt_to_request p client with
    | some r => if jsonTruthy r then some r else none
    | none => none)

/-- `_create_config`: builds the dispatcher configuration, or `None` when
the client is unrecognized or the matching key is falsy (unset or empty). -/
def _create_config (st : ParallelAIUtilities) (p : LLMPromptContext)
    (requests_file results_file : String) : Option OAIApiFromFileConfig :=
  if p.llm_config.client == "openai" && optStrTruthy st.openai_key then
    some ⟨requests_file, results_file, "https://api.openai.com/v1/chat/completions",
      st.openai_key.getD "", st.oai_request_limits.max_requests_per_minute,
      st.oai_request_limits.max_tokens_per_minute, "cl100k_base", 5, 20⟩
  else if p.llm_config.client == "anthropic" && optStrTruthy st.anthropic_key then
    some ⟨requests_file, results_file, "https://api.anthropic.com/v1/messages",
      st.anthropic_key.getD "", st.anthropic_request_limits.max_requests_per_minute,
      st.anthropic_request_limits.max_tokens_per_minute, "cl100k_base", 5, 20⟩
  else
    none

/-- Python tuple unpacking `request_data, response_data = result` on a
decoded JSON value: succeeds on a two-element array, on a two-character
string (its characters) and on a two-key object (its keys); anything else
raises. -/
def unpackPair : Json → Option (Json × Json)
  | Json.arr [a, b] => some (a, b)
  | Json.str s =>
    match s.data with
    | [c1, c2] => some (Json.str (String.mk [c1]), Json.str (String.mk [c2]))
    | _ => none
  | Json.obj [(k1, _), (k2, _)] => some (Json.str k1, Json.str k2)
  | _ => none

/-- `_convert_result_to_llm_output`: `none` models the exception raised by
the unpacking (caught by the caller's generic handler). -/
def _convert_result_to_llm_output (result : Json) (p : LLMPromptContext) : Option LLMOutput :=
  match unpackPair result with
  | none => none
  | some (request_data, response_data) =>
    if p.llm_config.client == "openai" then
      some ⟨response_data, request_data⟩
    else if p.llm_config.client == "anthropic" then
      some ⟨response_data, request_data⟩
    else
      some ⟨Json.obj [("error", Json.str "Unexpected client type")], request_data⟩

/-- `_parse_results_file`: zips the results-file lines positionally with the
original prompt list (`zip` truncates to the shorter).  A decode error
yields the fixed payload `{"error": "JSON decode error"}`; an exception
while processing a decoded line yields `{"error": str(e)}` — the Python
exception text, modelled by a fixed marker no claim depends on. -/
def _parse_results_file (file_lines : List ParsedLine)
    (original_prompts : List LLMPromptContext) : List LLMOutput :=
  List.zipWith (fun line p =>
    match line with
    | ParsedLine.decodeError _ =>
      ⟨Json.obj [("error", Json.str "JSON decode error")], Json.obj []⟩
    | ParsedLine.json v =>
      match _convert_result_to_llm_output v p with
      | some out => out
      | none => ⟨Json.obj [("error", Json.str "result processing error")], Json.obj []⟩)
    file_lines original_prompts

/-- Outcome of one per-provider run: the parsed results and whether
`process_api_requests_from_file` (the network dispatcher) was invoked. -/
structure ProviderRun where
  results : List LLMOutput
  network_called : Bool

/-- `_run_openai_completion`.  `results_file` is the content the external
dispatcher would leave in the save file; it is only read when the
configuration is built (key present).  The source indexes `prompts[0]`, and
is only called with a non-empty list; on `[]` the model returns the inert
run. -/
def _run_openai_completion (st : ParallelAIUtilities) (prompts : List LLMPromptContext)
    (results_file : List ParsedLine) : ProviderRun :=
  match prompts with
  | [] => ⟨[], false⟩
  | p :: _ =>
    match _create_config st p "openai_requests.jsonl" "openai_results.jsonl" with
    | some _ => ⟨_parse_results_file results_file prompts, true⟩
    | none => ⟨[], false⟩

/-- `_run_anthropic_completion`, same shape as the OpenAI run. -/
def _run_anthropic_completion (st : ParallelAIUtilities) (prompts : List LLMPromptContext)
    (results_file : List ParsedLine) : ProviderRun :=
  match prompts with
  | [] => ⟨[], false⟩
  | p :: _ =>
    match _create_config st p "anthropic_requests.jsonl" "anthropic_results.jsonl" with
    | some _ => ⟨_parse_results_file results_file prompts, true⟩
    | none => ⟨[], false⟩

/-- `run_parallel_ai_completion`: partitions the prompts by client, runs the
OpenAI partition then the Anthropic partition, and concatenates their result
lists.  `openai_results` / `anthropic_results` are the contents of the two
results files. -/
def run_parallel_ai_completion (st : ParallelAIUtilities)
    (prompts : List LLMPromptContext)
    (openai_results anthropic_results : List ParsedLine) : List LLMOutput :=
  let openai_prompts := prompts.filter (fun p => p.llm_config.client == "openai")
  let anthropic_prompts := prompts.filter (fun p => p.llm_config.client == "anthropic")
  (if openai_prompts.isEmpty then []
   else (_run_openai_completion st openai_prompts openai_results).results) ++
  (if anthropic_prompts.isEmpty then []
   else (_run_anthropic_completion st anthropic_prompts anthropic_results).results)

/-- `run_parallel_ai_tool_completion`: unimplemented in the source, returns
the empty list for every input. -/
def run_parallel_ai_tool_completion (_st : ParallelAIUtilities)
    (_prompts : List LLMPromptContext) : List LLMOutput :=
  []

/-- `AIUtilities` instance state (inference.py): the four environment
variables. -/
structure AIUtilities where
  openai_key : Option String
  openai_model : Option String
  anthropic_api_key : Option String
  anthropic_model : Option String

/-- A value escaping `run_ai_completion` to the caller: either an
`LLMOutput` or the bare string `"Invalid AI vendor"` returned for an
unrecognized client.  An `Except.error` in the functions below models an
exception propagating out of the Python method. -/
inductive AIResult where
  | output (o : LLMOutput)
  | invalidVendor (msg : String)

/-- `run_openai_completion` (inference.py): builds `completion_kwargs`, then
performs the network call; any exception from the call is caught and
returned as an `LLMOutput` whose `raw_result` is `"Error: " + str(e)`. -/
def run_openai_completion (st : AIUtilities) (p : LLMPromptContext)
    (net : Except String Json) : Except String LLMOutput :=
  let completion_kwargs := Json.obj [
    ("model", match modelOr p.llm_config.model st.openai_model with
      | some m => Json.str m
      | none => Json.null),
    ("messages", Json.arr p.oai_messages),
    ("max_tokens", Json.num p.llm_config.max_tokens),
    ("temperature", p.llm_config.temperature),
    ("response_format", p.oai_response_format)]
  match net with
  | Except.ok resp => Except.ok ⟨resp, completion_kwargs⟩
  | Except.error e => Except.ok ⟨Json.str ("Error: " ++ e), completion_kwargs⟩

/-- `run_anthropic_completion` (inference.py): asserts the model resolves
before `completion_kwargs` is assigned; when the assert fires, the `except`
handler itself raises (it reads the still-unbound `completion_kwargs`), so
the exception escapes — modelled as `Except.error`. -/
def run_anthropic_completion (st : AIUtilities) (p : LLMPromptContext)
    (net : Except String Json) : Except String LLMOutput :=
  match modelOr p.llm_config.model st.anthropic_model with
  | none => Except.error "UnboundLocalError: completion_kwargs"
  | some m =>
    let completion_kwargs := Json.obj [
      ("model", Json.str m),
      ("messages", Json.arr p.anthropic_msgs),
      ("max_tokens", Json.num p.llm_config.max_tokens),
      ("temperature", p.llm_config.temperature),
      ("system", systemFieldDirect p.anthropic_system)]
    match net with
    | Except.ok resp => Except.ok ⟨resp, completion_kwargs⟩
    | Except.error e => Except.ok ⟨Json.str e, completion_kwargs⟩

/-- `run_ai_completion` (inference.py): dispatches on the client.  The
`assert <key> is not None` lines sit outside any `try`, so a missing key
raises `AssertionError` to the caller; an unrecognized client returns the
bare string `"Invalid AI vendor"`. -/
def run_ai_completion (st : AIUtilities) (p : LLMPromptContext)
    (net : Except String Json) : Except String AIResult :=
  if p.llm_config.client == "openai" then
    match st.openai_key with
    | none => Except.error "AssertionError: OpenAI API key is not set"
    | some _ => (run_openai_completion st p net).map AIResult.output
  else if p.llm_config.client == "anthropic" then
    match st.anthropic_api_key with
    | none => Except.error "AssertionError: Anthropic API key is not set"
    | some _ => (run_anthropic_completion st p net).map AIResult.output
  else
    Except.ok (AIResult.invalidVendor "Invalid AI vendor")

/-- `run_openai_tool_completion` (inference.py): asserts
`structured_output is not None` inside the `try` before `completion_kwargs`
is assigned, so that failure escapes via the handler's unbound local; a
truthy `get_tool()` adds `tools` and a forced function `tool_choice`. -/
def run_openai_tool_completion (st : AIUtilities) (p : LLMPromptContext)
    (net : Except String Json) : Except String LLMOutput :=
  match p.structured_output with
  | none => Except.error "UnboundLocalError: completion_kwargs"
  | some so =>
    let base := [
      ("model", match modelOr p.llm_config.model st.openai_model with
        | some m => Json.str m
        | none => Json.null),
      ("messages", Json.arr p.oai_messages),
      ("max_tokens", Json.num p.llm_config.max_tokens),
      ("temperature", p.llm_config.temperature)]
    let completion_kwargs := Json.obj (
      match p.tool with
      | some t =>
        if jsonTruthy t then
          base ++ [("tools", Json.arr [t]),
            ("tool_choice", Json.obj [("type", Json.str "function"),
              ("function", Json.obj [("name", Json.str so.schema_name)])])]
        else base
      | none => base)
    match net with
    | Except.ok resp => Except.ok ⟨resp, completion_kwargs⟩
    | Except.error e => Except.ok ⟨Json.str e, completion_kwargs⟩

/-- `run_anthropic_tool_completion` (inference.py): same unbound-local
escape when the model does not resolve; a truthy `get_tool()` together with
a present `structured_output` adds `tools` and a `tool_choice` forcing the
tool named by the schema. -/
def run_anthropic_tool_completion (st : AIUtilities) (p : LLMPromptContext)
    (net : Except String Json) : Except String LLMOutput :=
  match modelOr p.llm_config.model st.anthropic_model with
  | none => Except.error "UnboundLocalError: completion_kwargs"
  | some m =>
    let base := [
      ("model", Json.str m),
      ("messages", Json.arr p.anthropic_msgs),
      ("max_tokens", Json.num p.llm_config.max_tokens),
      ("temperature", p.llm_config.temperature),
      ("system", systemFieldDirect p.anthropic_system)]
    let completion_kwargs := Json.obj (
      match p.tool, p.structured_output with
      | some t, some so =>
        if jsonTruthy t then
          base ++ [("tools", Json.arr [t]),
            ("tool_choice", Json.obj [("name", Json.str so.schema_name),
              ("type", Json.str "tool")])]
        else base
      | _, _ => base)
    match net with
    | Except.ok resp => Except.ok ⟨resp, completion_kwargs⟩
    | Except.error e => Except.ok ⟨Json.str e, completion_kwargs⟩

/-- `run_ai_tool_completion` (inference.py): dispatches on the client and
raises `ValueError` for any other client. -/
def run_ai_tool_completion (st : AIUtilities) (p : LLMPromptContext)
    (net : Except String Json) : Except String LLMOutput :=
  if p.llm_config.client == "openai" then
    run_openai_tool_completion st p net
  else if p.llm_config.client == "anthropic" then
    run_anthropic_tool_completion st p net
  else
    Except.error "ValueError: Unsupported client for tool completion"

/-- True exactly for the two provider identifiers the batch orchestrator
recognizes. -/
def recognizedClient (p : LLMPromptContext) : Bool :=
  p.llm_config.client == "openai" || p.llm_config.client == "anthropic"

/-- Concrete chat message used by the fixtures below. -/
def sampleMsg : Json := Json.obj [("role", Json.str "user"), ("content", Json.str "hi")]

/-- Concrete OpenAI-client prompt. -/
def samplePromptO : LLMPromptContext :=
  ⟨⟨"openai", "gpt-4o", 250, Json.num 1⟩, [sampleMsg], Json.null, none, [sampleMsg], none, none⟩

/-- Concrete Anthropic-client prompt. -/
def samplePromptA : LLMPromptContext :=
  ⟨⟨"anthropic", "claude-3", 250, Json.num 1⟩, [sampleMsg], Json.null, some "sys",
    [sampleMsg], none, none⟩

/-- Concrete prompt with an unrecognized provider identifier. -/
def samplePromptU : LLMPromptContext :=
  ⟨⟨"groq", "llama", 250, Json.num 1⟩, [sampleMsg], Json.null, none, [sampleMsg], none, none⟩

/-- Batch state with both keys set. -/
def sampleState : ParallelAIUtilities :=
  ⟨some "sk-openai", some "sk-anthropic", {}, { provider := "anthropic" }⟩

/-- Batch state with both environment keys unset. -/
def sampleStateNoKeys : ParallelAIUtilities := ⟨none, none, {}, { provider := "anthropic" }⟩

/-- Concrete request parameters / response payloads for results-file lines. -/
def sampleRequestO : Json := Json.obj [("model", Json.str "gpt-4o")]

/-- Concrete Anthropic request parameters. -/
def sampleRequestA : Json := Json.obj [("model", Json.str "claude-3")]

/-- Concrete OpenAI response payload. -/
def sampleResponseO : Json := Json.str "openai response"

/-- Concrete Anthropic response payload. -/
def sampleResponseA : Json := Json.str "anthropic response"

/-- A well-formed OpenAI results-file line. -/
def sampleLineO : ParsedLine := ParsedLine.json (Json.arr [sampleRequestO, sampleResponseO])

/-- A well-formed Anthropic results-file line. -/
def sampleLineA : ParsedLine := ParsedLine.json (Json.arr [sampleRequestA, sampleResponseA])

/-- Single-request state with all four environment variables set. -/
def sampleAIState : AIUtilities :=
  ⟨some "sk-openai", some "gpt-4o-default", some "sk-anthropic", some "claude-default"⟩

/-- Single-request state with every environment variable unset. -/
def sampleAINoKeys : AIUtilities := ⟨none, none, none, none⟩

/-- Concrete tool dictionary as returned by `get_tool()`. -/
def sampleTool : Json := Json.obj [("name", Json.str "tell_joke")]

/-- Concrete structured-output specification. -/
def sampleSchema : StructuredTool := ⟨"tell_joke", "joke tool", Json.obj [("type", Json.str "object")]⟩

/-- Concrete Anthropic prompt carrying a structured-output tool. -/
def samplePromptTool : LLMPromptContext :=
  ⟨⟨"anthropic", "claude-3", 250, Json.num 1⟩, [sampleMsg], Json.null, some "sys",
    [sampleMsg], some sampleSchema, some sampleTool⟩

/-- The completion kwargs the plain Anthropic path builds for
`samplePromptTool`. -/
def sampleKwargsPlainA : Json := Json.obj [
  ("model", Json.str "claude-3"),
  ("messages", Json.arr [sampleMsg]),
  ("max_tokens", Json.num 250),
  ("temperature", Json.num 1),
  ("system", Json.str "sys")]

/-- The completion kwargs the Anthropic tool path builds for
`samplePromptTool`. -/
def sampleKwargsToolA : Json := Json.obj [
  ("model", Json.str "claude-3"),
  ("messages", Json.arr [sampleMsg]),
  ("max_tokens", Json.num 250),
  ("temperature", Json.num 1),
  ("system", Json.str "sys"),
  ("tools", Json.arr [sampleTool]),
  ("tool_choice", Json.obj [("name", Json.str "tell_joke"), ("type", Json.str "tool")])]

/-- Head of a filtered list satisfies the filter predicate. -/
theorem filter_head_sat {α : Type} (f : α → Bool) (l : List α) (p : α) (rest : List α)
    (h : l.filter f = p :: rest) : f p = true := by
  have hp : p ∈ l.filter f := by rw [h]; exact List.mem_cons_self p rest
  exact (List.mem_filter.mp hp).2

/-- Removing an element the filter rejects does not change the filtered
list. -/
theorem filter_middle_false {α : Type} (f : α → Bool) (l1 l2 : List α) (p : α)
    (h : f p = false) : (l1 ++ p :: l2).filter f = (l1 ++ l2).filter f := by
  simp [List.filter_append, List.filter_cons, h]

/-- Pointwise index lemma for `zipWith`. -/
theorem zipWith_getElem?_eq {α β γ : Type} (f : α → β → γ) (l1 : List α) (l2 : List β)
    (i : Nat) (a : α) (b : β) (h1 : l1[i]? = some a) (h2 : l2[i]? = some b) :
    (List.zipWith f l1 l2)[i]? = some (f a b) := by
  induction l1 generalizing l2 i with
  | nil => simp at h1
  | cons x xs ih =>
    cases l2 with
    | nil => simp at h2
    | cons y ys =>
      cases i with
      | zero =>
        simp only [List.getElem?_cons_zero, Option.some.injEq] at h1 h2
        simp [h1, h2]
      | succ n =>
        simp only [List.getElem?_cons_succ] at h1 h2
        simpa using ih ys n h1 h2

/-- The batch output is always the OpenAI partition run followed by the
Anthropic partition run. -/
theorem run_parallel_concat (st : ParallelAIUtilities) (prompts : List LLMPromptContext)
    (oR aR : List ParsedLine) :
    run_parallel_ai_completion st prompts oR aR =
      (_run_openai_completion st
        (prompts.filter (fun p => p.llm_config.client == "openai")) oR).results ++
      (_run_anthropic_completion st
        (prompts.filter (fun p => p.llm_config.client == "anthropic")) aR).results := by
  simp only [run_parallel_ai_completion]
  cases hO : prompts.filter (fun p => p.llm_config.client == "openai") <;>
    cases hA : prompts.filter (fun p => p.llm_config.client == "anthropic") <;>
      simp [_run_openai_completion, _run_anthropic_completion]

/-- Length of an OpenAI partition run when the key is truthy, every prompt
in the partition targets OpenAI, and the results file has one line per
prompt. -/
theorem run_openai_results_length (st : ParallelAIUtilities) (l : List LLMPromptContext)
    (oR : List ParsedLine) (hkey : optStrTruthy st.openai_key = true)
    (hcl : ∀ p ∈ l, p.llm_config.client == "openai") (hlen : oR.length = l.length) :
    (_run_openai_completion st l oR).results.length = l.length := by
  cases l with
  | nil => simp [_run_openai_completion]
  | cons p rest =>
    have hp := hcl p (List.mem_cons_self p rest)
    simp [_run_openai_completion, _create_config, hp, hkey, _parse_results_file,
      List.length_zipWith, hlen]

/-- Length of an Anthropic partition run, as for OpenAI. -/
theorem run_anthropic_results_length (st : ParallelAIUtilities) (l : List LLMPromptContext)
    (aR : List ParsedLine) (hkey : optStrTruthy st.anthropic_key = true)
    (hcl : ∀ p ∈ l, p.llm_config.client == "anthropic") (hlen : aR.length = l.length) :
    (_run_anthropic_completion st l aR).results.length = l.length := by
  cases l with
  | nil => simp [_run_anthropic_completion]
  | cons p rest =>
    have hp := hcl p (List.mem_cons_self p rest)
    have hne : (p.llm_config.client == "openai") = false := by
      cases hcp : p.llm_config.client == "openai" with
      | false => rfl
      | true =>
        have h1 : p.llm_config.client = "openai" := by simpa using hcp
        have h2 : p.llm_config.client = "anthropic" := by simpa using hp
        rw [h1] at h2
        exact absurd h2 (by decide)
    simp [_run_anthropic_completion, _create_config, hp, hne, hkey, _parse_results_file,
      List.length_zipWith, hlen]

/-- C9: for every input list of prompts, `run_parallel_ai_tool_completion`
returns the empty list, performing no dispatch work. -/
theorem C9_tool_completion_empty (st : ParallelAIUtilities)
    (prompts : List LLMPromptContext) :
    run_parallel_ai_tool_completion st prompts = [] := rfl

/-- C4 counterexample: a line that fails to decode is recorded with the
fixed payload `{"error": "JSON decode error"}` and empty kwargs.  Two
distinct raw lines produce identical outputs, so the recorded result cannot
carry the raw unparsed bytes of the line, contrary to the claim. -/
theorem C4_counterexample :
    _parse_results_file [ParsedLine.decodeError "bad line A"] [samplePromptO] =
      _parse_results_file [ParsedLine.decodeError "bad line B"] [samplePromptO] ∧
    "bad line A" ≠ "bad line B" ∧
    _parse_results_file [ParsedLine.decodeError "bad line A"] [samplePromptO] =
      [⟨Json.obj [("error", Json.str "JSON decode error")], Json.obj []⟩] :=
  ⟨rfl, by decide, rfl⟩

/-- C4 amended: a results-file line whose body is unparseable as JSON is
recorded as a failed result with the fixed payload
`{"error": "JSON decode error"}` and empty completion kwargs (the raw bytes
are not carried), and parsing continues with the remaining lines without
aborting the batch. -/
theorem C4_amended_fixed_payload (raw : String) (rest_lines : List ParsedLine)
    (p : LLMPromptContext) (rest_prompts : List LLMPromptContext) :
    _parse_results_file (ParsedLine.decodeError raw :: rest_lines) (p :: rest_prompts) =
      ⟨Json.obj [("error", Json.str "JSON decode error")], Json.obj []⟩ ::
        _parse_results_file rest_lines rest_prompts := rfl

/-- C2 counterexample: a batch consisting of a single prompt with the
unrecognized provider `"groq"` returns the empty list — there is no failed
`LLMOutput` at the prompt's original index 0, contrary to the claim. -/
theorem C2_counterexample :
    samplePromptU.llm_config.client = "groq" ∧
    run_parallel_ai_completion sampleState [samplePromptU] [] [] = [] ∧
    (run_parallel_ai_completion sampleState [samplePromptU] [] [])[0]? = none :=
  ⟨rfl, rfl, rfl⟩

/-- C2 amended: a prompt with an unrecognized provider identifier is never
written to either provider's requests file (so nothing is sent over the
network for it) and is silently dropped from the returned list: the batch
output for a list containing it equals the output for the list with it
removed. -/
theorem C2_amended_unrecognized_dropped (st : ParallelAIUtilities)
    (l1 l2 : List LLMPromptContext) (p : LLMPromptContext) (oR aR : List ParsedLine)
    (h : recognizedClient p = false) :
    _prepare_requests_file ((l1 ++ p :: l2).filter
        (fun q => q.llm_config.client == "openai")) "openai" =
      _prepare_requests_file ((l1 ++ l2).filter
        (fun q => q.llm_config.client == "openai")) "openai" ∧
    _prepare_requests_file ((l1 ++ p :: l2).filter
        (fun q => q.llm_config.client == "anthropic")) "anthropic" =
      _prepare_requests_file ((l1 ++ l2).filter
        (fun q => q.llm_config.client == "anthropic")) "anthropic" ∧
    run_parallel_ai_completion st (l1 ++ p :: l2) oR aR =
      run_parallel_ai_completion st (l1 ++ l2) oR aR := by
  have hO : (p.llm_config.client == "openai") = false := by
    cases hc : p.llm_config.client == "openai" with
    | false => rfl
    | true => simp [recognizedClient, hc] at h
  have hA : (p.llm_config.client == "anthropic") = false := by
    cases hc : p.llm_config.client == "anthropic" with
    | false => rfl
    | true => simp [recognizedClient, hc] at h
  refine ⟨?_, ?_, ?_⟩
  · rw [filter_middle_false (fun q => q.llm_config.client == "openai") l1 l2 p hO]
  · rw [filter_middle_false (fun q => q.llm_config.client == "anthropic") l1 l2 p hA]
  · simp only [run_parallel_ai_completion]
    rw [filter_middle_false (fun q => q.llm_config.client == "openai") l1 l2 p hO,
      filter_middle_false (fun q => q.llm_config.client == "anthropic") l1 l2 p hA]

/-- C2 amended witness: the amended statement instantiated at a concrete
three-prompt batch whose middle prompt targets the unrecognized provider
`"groq"`. -/
theorem C2_amended_witness :
    _prepare_requests_file (([samplePromptO] ++ samplePromptU :: [samplePromptA]).filter
        (fun q => q.llm_config.client == "openai")) "openai" =
      _prepare_requests_file (([samplePromptO] ++ [samplePromptA]).filter
        (fun q => q.llm_config.client == "openai")) "openai" ∧
    _prepare_requests_file (([samplePromptO] ++ samplePromptU :: [samplePromptA]).filter
        (fun q => q.llm_config.client == "anthropic")) "anthropic" =
      _prepare_requests_file (([samplePromptO] ++ [samplePromptA]).filter
        (fun q => q.llm_config.client == "anthropic")) "anthropic" ∧
    run_parallel_ai_completion sampleState ([samplePromptO] ++ samplePromptU :: [samplePromptA])
        [sampleLineO] [sampleLineA] =
      run_parallel_ai_completion sampleState ([samplePromptO] ++ [samplePromptA])
        [sampleLineO] [sampleLineA] :=
  C2_amended_unrecognized_dropped sampleState [samplePromptO] [samplePromptA] samplePromptU
    [sampleLineO] [sampleLineA] (by decide)

/-- C10: the batch output equals the OpenAI-partition results (the
OpenAI-client prompts in their relative input order) followed by the
Anthropic-partition results, and prompts of any other client value are
absent: filtering them out of the input leaves the output unchanged. -/
theorem C10_partition_grouping (st : ParallelAIUtilities)
    (prompts : List LLMPromptContext) (oR aR : List ParsedLine) :
    run_parallel_ai_completion st prompts oR aR =
      (_run_openai_completion st
        (prompts.filter (fun p => p.llm_config.client == "openai")) oR).results ++
      (_run_anthropic_completion st
        (prompts.filter (fun p => p.llm_config.client == "anthropic")) aR).results ∧
    run_parallel_ai_completion st prompts oR aR =
      run_parallel_ai_completion st (prompts.filter recognizedClient) oR aR := by
  have hO : (prompts.filter recognizedClient).filter
      (fun p => p.llm_config.client == "openai") =
      prompts.filter (fun p => p.llm_config.client == "openai") := by
    rw [List.filter_filter]
    apply List.filter_congr
    intro a _
    cases hc : a.llm_config.client == "openai" <;> simp [recognizedClient, hc]
  have hA : (prompts.filter recognizedClient).filter
      (fun p => p.llm_config.client == "anthropic") =
      prompts.filter (fun p => p.llm_config.client == "anthropic") := by
    rw [List.filter_filter]
    apply List.filter_congr
    intro a _
    cases hc : a.llm_config.client == "anthropic" <;> simp [recognizedClient, hc]
  refine ⟨run_parallel_concat st prompts oR aR, ?_⟩
  rw [run_parallel_concat st prompts oR aR,
    run_parallel_concat st (prompts.filter recognizedClient) oR aR, hO, hA]

/-- C1 counterexample: a mixed batch `[anthropic prompt, openai prompt]`
(with both keys set and one successful results line per provider) returns
the OpenAI response first: the result at index 0 carries the OpenAI
response although the prompt at index 0 targets Anthropic, so the output is
not in input order. -/
theorem C1_counterexample :
    [samplePromptA, samplePromptO].map (fun p => p.llm_config.client) =
      ["anthropic", "openai"] ∧
    (run_parallel_ai_completion sampleState [samplePromptA, samplePromptO]
        [sampleLineO] [sampleLineA]).map (fun o => o.raw_result) =
      [sampleResponseO, sampleResponseA] ∧
    sampleResponseO ≠ sampleResponseA :=
  ⟨rfl, rfl, by intro h; simp [sampleResponseO, sampleResponseA] at h⟩

/-- C1 amended: when both provider keys are set and each provider's results
file carries one line per prompt of that provider, the batch returns one
result per recognized-provider prompt — the output length is the number of
OpenAI-client prompts plus the number of Anthropic-client prompts — but the
results are grouped by provider (the whole OpenAI partition first, then the
Anthropic partition), not interleaved in input order, and prompts of any
other provider contribute no result. -/
theorem C1_amended_grouped_length (st : ParallelAIUtilities)
    (prompts : List LLMPromptContext) (oR aR : List ParsedLine)
    (hO : optStrTruthy st.openai_key = true)
    (hA : optStrTruthy st.anthropic_key = true)
    (hlO : oR.length = (prompts.filter (fun p => p.llm_config.client == "openai")).length)
    (hlA : aR.length = (prompts.filter (fun p => p.llm_config.client == "anthropic")).length) :
    run_parallel_ai_completion st prompts oR aR =
      (_run_openai_completion st
        (prompts.filter (fun p => p.llm_config.client == "openai")) oR).results ++
      (_run_anthropic_completion st
        (prompts.filter (fun p => p.llm_config.client == "anthropic")) aR).results ∧
    (run_parallel_ai_completion st prompts oR aR).length =
      (prompts.filter (fun p => p.llm_config.client == "openai")).length +
      (prompts.filter (fun p => p.llm_config.client == "anthropic")).length := by
  refine ⟨run_parallel_concat st prompts oR aR, ?_⟩
  rw [run_parallel_concat st prompts oR aR, List.length_append]
  rw [run_openai_results_length st _ oR hO (fun p hp => (List.mem_filter.mp hp).2) hlO,
    run_anthropic_results_length st _ aR hA (fun p hp => (List.mem_filter.mp hp).2) hlA]

/-- C1 amended witness: the amended statement at a concrete two-prompt mixed
batch. -/
theorem C1_amended_witness :
    run_parallel_ai_completion sampleState [samplePromptA, samplePromptO]
        [sampleLineO] [sampleLineA] =
      (_run_openai_completion sampleState
        ([samplePromptA, samplePromptO].filter
          (fun p => p.llm_config.client == "openai")) [sampleLineO]).results ++
      (_run_anthropic_completion sampleState
        ([samplePromptA, samplePromptO].filter
          (fun p => p.llm_config.client == "anthropic")) [sampleLineA]).results ∧
    (run_parallel_ai_completion sampleState [samplePromptA, samplePromptO]
        [sampleLineO] [sampleLineA]).length =
      ([samplePromptA, samplePromptO].filter
        (fun p => p.llm_config.client == "openai")).length +
      ([samplePromptA, samplePromptO].filter
        (fun p => p.llm_config.client == "anthropic")).length :=
  C1_amended_grouped_length sampleState [samplePromptA, samplePromptO]
    [sampleLineO] [sampleLineA] (by decide) (by decide) (by decide) (by decide)

/-- C3: `_parse_results_file` pairs results-file lines with the original
prompts positionally (the output has one entry per zipped pair, truncating
to the shorter list), and a line that decodes to a two-element array
`[request_parameters, response_payload]`, zipped against a prompt of a
recognized client, yields the result whose `completion_kwargs` is the first
element and whose `raw_result` is the second. -/
theorem C3_positional_zip (lines : List ParsedLine) (prompts : List LLMPromptContext) :
    (_parse_results_file lines prompts).length = min lines.length prompts.length ∧
    ∀ (i : Nat) (req resp : Json) (p : LLMPromptContext),
      lines[i]? = some (ParsedLine.json (Json.arr [req, resp])) →
      prompts[i]? = some p →
      (p.llm_config.client = "openai" ∨ p.llm_config.client = "anthropic") →
      (_parse_results_file lines prompts)[i]? = some ⟨resp, req⟩ := by
  constructor
  · simp [_parse_results_file, List.length_zipWith]
  · intro i req resp p h1 h2 h3
    unfold _parse_results_file
    rw [zipWith_getElem?_eq _ lines prompts i _ p h1 h2]
    rcases h3 with h3 | h3 <;>
      simp [_convert_result_to_llm_output, unpackPair, h3]

/-- C3 witness: a one-line OpenAI results file reconciled against its
originating prompt. -/
theorem C3_witness :
    (_parse_results_file [sampleLineO] [samplePromptO])[0]? =
      some ⟨sampleResponseO, sampleRequestO⟩ :=
  (C3_positional_zip [sampleLineO] [samplePromptO]).2 0 sampleRequestO sampleResponseO
    samplePromptO rfl rfl (Or.inl rfl)

/-- C5 counterexample: with the OpenAI key unset, the batch path indeed
attempts no network call for an OpenAI prompt, but nothing is surfaced to
the caller: the provider run returns normally with an empty result list,
and the whole batch returns `[]` — the configuration error is silent, not
fatal, contrary to the claim. -/
theorem C5_counterexample :
    (_run_openai_completion sampleStateNoKeys [samplePromptO] [sampleLineO]).network_called
      = false ∧
    (_run_openai_completion sampleStateNoKeys [samplePromptO] [sampleLineO]).results = [] ∧
    run_parallel_ai_completion sampleStateNoKeys [samplePromptO, samplePromptA]
        [sampleLineO] [sampleLineA] = [] :=
  ⟨rfl, rfl, rfl⟩

/-- C5 amended: when a provider's credential is missing (or empty), the
batch path attempts no network call for that provider's prompts but
surfaces nothing: the provider run returns an empty result list with the
dispatcher never invoked, silently dropping those prompts.  Only the
single-request path `run_ai_completion` surfaces the missing credential
immediately, by raising an assertion error before any network call. -/
theorem C5_amended_silent_drop (stp : ParallelAIUtilities) (sta : AIUtilities)
    (po pa p q : LLMPromptContext) (restO restA : List LLMPromptContext)
    (oR aR : List ParsedLine) (net : Except String Json)
    (hkO : optStrTruthy stp.openai_key = false) (hpo : po.llm_config.client = "openai")
    (hkA : optStrTruthy stp.anthropic_key = false) (hpa : pa.llm_config.client = "anthropic")
    (hsaO : sta.openai_key = none) (hp : p.llm_config.client = "openai")
    (hsaA : sta.anthropic_api_key = none) (hq : q.llm_config.client = "anthropic") :
    _run_openai_completion stp (po :: restO) oR = ⟨[], false⟩ ∧
    _run_anthropic_completion stp (pa :: restA) aR = ⟨[], false⟩ ∧
    run_ai_completion sta p net = Except.error "AssertionError: OpenAI API key is not set" ∧
    run_ai_completion sta q net =
      Except.error "AssertionError: Anthropic API key is not set" := by
  refine ⟨?_, ?_, ?_, ?_⟩
  · simp [_run_openai_completion, _create_config, hpo, hkO]
  · simp [_run_anthropic_completion, _create_config, hpa, hkA]
  · simp [run_ai_completion, hp, hsaO]
  · simp [run_ai_completion, hq, hsaA]

/-- C5 amended witness: the amended statement at concrete keyless states
and concrete prompts. -/
theorem C5_amended_witness :
    _run_openai_completion sampleStateNoKeys (samplePromptO :: []) [sampleLineO] =
      ⟨[], false⟩ ∧
    _run_anthropic_completion sampleStateNoKeys (samplePromptA :: []) [sampleLineA] =
      ⟨[], false⟩ ∧
    run_ai_completion sampleAINoKeys samplePromptO (Except.ok Json.null) =
      Except.error "AssertionError: OpenAI API key is not set" ∧
    run_ai_completion sampleAINoKeys samplePromptA (Except.ok Json.null) =
      Except.error "AssertionError: Anthropic API key is not set" :=
  C5_amended_silent_drop sampleStateNoKeys sampleAINoKeys samplePromptO samplePromptA
    samplePromptO samplePromptA [] [] [sampleLineO] [sampleLineA] (Except.ok Json.null)
    rfl rfl rfl rfl rfl rfl rfl rfl

/-- C6: the per-provider limit defaults are `max_requests_per_minute = 50`
and `max_tokens_per_minute = 100000`, and for each provider the dispatch
configuration built by `_create_config` carries that provider's configured
request and token limits, a max attempt count of 5, the provider's endpoint
URL and the provider's credential string. -/
theorem C6_config_carries_limits (st : ParallelAIUtilities) (p q : LLMPromptContext)
    (rf sf ko ka : String)
    (hpo : p.llm_config.client = "openai") (hko : st.openai_key = some ko) (hkoNe : ko ≠ "")
    (hqa : q.llm_config.client = "anthropic") (hka : st.anthropic_key = some ka)
    (hkaNe : ka ≠ "") :
    ({} : RequestLimits).max_requests_per_minute = 50 ∧
    ({} : RequestLimits).max_tokens_per_minute = 100000 ∧
    _create_config st p rf sf = some ⟨rf, sf,
      "https://api.openai.com/v1/chat/completions", ko,
      st.oai_request_limits.max_requests_per_minute,
      st.oai_request_limits.max_tokens_per_minute, "cl100k_base", 5, 20⟩ ∧
    _create_config st q rf sf = some ⟨rf, sf,
      "https://api.anthropic.com/v1/messages", ka,
      st.anthropic_request_limits.max_requests_per_minute,
      st.anthropic_request_limits.max_tokens_per_minute, "cl100k_base", 5, 20⟩ := by
  refine ⟨rfl, rfl, ?_, ?_⟩
  · simp [_create_config, hpo, hko, optStrTruthy, hkoNe]
  · simp [_create_config, hqa, hka, optStrTruthy, hkaNe]

/-- C6 witness: the configuration built for the sample state and sample
prompts. -/
theorem C6_witness :
    ({} : RequestLimits).max_requests_per_minute = 50 ∧
    ({} : RequestLimits).max_tokens_per_minute = 100000 ∧
    _create_config sampleState samplePromptO "req.jsonl" "res.jsonl" = some ⟨"req.jsonl",
      "res.jsonl", "https://api.openai.com/v1/chat/completions", "sk-openai",
      sampleState.oai_request_limits.max_requests_per_minute,
      sampleState.oai_request_limits.max_tokens_per_minute, "cl100k_base", 5, 20⟩ ∧
    _create_config sampleState samplePromptA "req.jsonl" "res.jsonl" = some ⟨"req.jsonl",
      "res.jsonl", "https://api.anthropic.com/v1/messages", "sk-anthropic",
      sampleState.anthropic_request_limits.max_requests_per_minute,
      sampleState.anthropic_request_limits.max_tokens_per_minute, "cl100k_base", 5, 20⟩ :=
  C6_config_carries_limits sampleState samplePromptO samplePromptA "req.jsonl" "res.jsonl"
    "sk-openai" "sk-anthropic" rfl rfl (by decide) rfl rfl (by decide)

/-- The OpenAI single-request path catches every network outcome: it always
returns an `LLMOutput` and never lets the exception escape. -/
theorem run_openai_completion_ok (st : AIUtilities) (p : LLMPromptContext)
    (net : Except String Json) :
    ∃ o, run_openai_completion st p net = Except.ok o := by
  cases net <;> exact ⟨_, rfl⟩

/-- The Anthropic single-request path returns an `LLMOutput` whenever the
model resolves. -/
theorem run_anthropic_completion_ok (st : AIUtilities) (p : LLMPromptContext)
    (net : Except String Json) (m : String)
    (hm : modelOr p.llm_config.model st.anthropic_model = some m) :
    ∃ o, run_anthropic_completion st p net = Except.ok o := by
  unfold run_anthropic_completion
  rw [hm]
  cases net <;> exact ⟨_, rfl⟩

/-- C7: every Anthropic wire payload carries the system text in a dedicated
`system` field separate from the user/assistant `messages` list — in the
batch request builder and in the single-request plain completion — and the
tool-invocation shape additionally carries a `tools` list and a
`tool_choice` forcing the tool named by the request's schema, whereas the
plain completion shape carries neither key. -/
theorem C7_anthropic_wire_shapes (st : AIUtilities) (p : LLMPromptContext)
    (net : Except String Json) (out outT : LLMOutput) (t : Json) (so : StructuredTool)
    (hplain : run_anthropic_completion st p net = Except.ok out)
    (htool : p.tool = some t) (ht : jsonTruthy t = true)
    (hso : p.structured_output = some so)
    (htoolrun : run_anthropic_tool_completion st p net = Except.ok outT) :
    (∃ r, _convert_prompt_to_request p "anthropic" = some r ∧
      Json.lookup r "system" = some (systemFieldTruthy p.anthropic_system) ∧
      Json.lookup r "messages" = some (Json.arr p.anthropic_msgs) ∧
      Json.lookup r "tools" = none ∧
      Json.lookup r "tool_choice" = none) ∧
    (Json.lookup out.completion_kwargs "system" =
        some (systemFieldDirect p.anthropic_system) ∧
      Json.lookup out.completion_kwargs "messages" = some (Json.arr p.anthropic_msgs) ∧
      Json.lookup out.completion_kwargs "tools" = none ∧
      Json.lookup out.completion_kwargs "tool_choice" = none) ∧
    (Json.lookup outT.completion_kwargs "tools" = some (Json.arr [t]) ∧
      Json.lookup outT.completion_kwargs "tool_choice" =
        some (Json.obj [("name", Json.str so.schema_name), ("type", Json.str "tool")]) ∧
      Json.lookup outT.completion_kwargs "system" =
        some (systemFieldDirect p.anthropic_system) ∧
      Json.lookup outT.completion_kwargs "messages" = some (Json.arr p.anthropic_msgs)) := by
  refine ⟨⟨_, rfl, rfl, rfl, rfl, rfl⟩, ?_, ?_⟩
  · cases hm : modelOr p.llm_config.model st.anthropic_model with
    | none =>
      unfold run_anthropic_completion at hplain
      rw [hm] at hplain
      exact absurd hplain (by simp)
    | some m =>
      unfold run_anthropic_completion at hplain
      rw [hm] at hplain
      cases net with
      | ok resp =>
        obtain rfl := Except.ok.inj hplain
        exact ⟨rfl, rfl, rfl, rfl⟩
      | error e =>
        obtain rfl := Except.ok.inj hplain
        exact ⟨rfl, rfl, rfl, rfl⟩
  · cases hm : modelOr p.llm_config.model st.anthropic_model with
    | none =>
      unfold run_anthropic_tool_completion at htoolrun
      rw [hm] at htoolrun
      exact absurd htoolrun (by simp)
    | some m =>
      unfold run_anthropic_tool_completion at htoolrun
      rw [hm, htool, hso] at htoolrun
      simp only [ht, if_true] at htoolrun
      cases net with
      | ok resp =>
        obtain rfl := Except.ok.inj htoolrun
        exact ⟨rfl, rfl, rfl, rfl⟩
      | error e =>
        obtain rfl := Except.ok.inj htoolrun
        exact ⟨rfl, rfl, rfl, rfl⟩

/-- C7 witness: the wire shapes at a concrete Anthropic tool prompt and a
successful network outcome. -/
theorem C7_witness :
    (∃ r, _convert_prompt_to_request samplePromptTool "anthropic" = some r ∧
      Json.lookup r "system" = some (systemFieldTruthy samplePromptTool.anthropic_system) ∧
      Json.lookup r "messages" = some (Json.arr samplePromptTool.anthropic_msgs) ∧
      Json.lookup r "tools" = none ∧
      Json.lookup r "tool_choice" = none) ∧
    (Json.lookup sampleKwargsPlainA "system" =
        some (systemFieldDirect samplePromptTool.anthropic_system) ∧
      Json.lookup sampleKwargsPlainA "messages" =
        some (Json.arr samplePromptTool.anthropic_msgs) ∧
      Json.lookup sampleKwargsPlainA "tools" = none ∧
      Json.lookup sampleKwargsPlainA "tool_choice" = none) ∧
    (Json.lookup sampleKwargsToolA "tools" = some (Json.arr [sampleTool]) ∧
      Json.lookup sampleKwargsToolA "tool_choice" =
        some (Json.obj [("name", Json.str sampleSchema.schema_name),
          ("type", Json.str "tool")]) ∧
      Json.lookup sampleKwargsToolA "system" =
        some (systemFieldDirect samplePromptTool.anthropic_system) ∧
      Json.lookup sampleKwargsToolA "messages" =
        some (Json.arr samplePromptTool.anthropic_msgs)) :=
  C7_anthropic_wire_shapes sampleAIState samplePromptTool (Except.ok (Json.str "resp"))
    ⟨Json.str "resp", sampleKwargsPlainA⟩ ⟨Json.str "resp", sampleKwargsToolA⟩
    sampleTool sampleSchema rfl rfl rfl rfl rfl

/-- C8 counterexample: with the OpenAI environment key unset,
`run_ai_completion` on an OpenAI-client prompt raises (the
`assert self.openai_key is not None` sits outside any `try`), so an
exception escapes to the caller before any request parameters are built,
contrary to the claim. -/
theorem C8_counterexample :
    run_ai_completion sampleAINoKeys samplePromptO (Except.ok Json.null) =
      Except.error "AssertionError: OpenAI API key is not set" := rfl

/-- C8 amended: the single-request helpers return a normalized output (or
the typed `"Invalid AI vendor"` value) and let no exception escape whenever
the needed configuration is present — the matching key set and, on the
Anthropic path, the model resolvable.  Configuration failures do escape as
exceptions: a missing key raises an assertion error in `run_ai_completion`,
and `run_ai_tool_completion` raises a `ValueError` for unrecognized
clients. -/
theorem C8_amended_no_escape_when_configured (st : AIUtilities)
    (p : LLMPromptContext) (net : Except String Json) :
    (∀ k, st.openai_key = some k → p.llm_config.client = "openai" →
      ∃ o, run_ai_completion st p net = Except.ok (AIResult.output o)) ∧
    (∀ k m, st.anthropic_api_key = some k → p.llm_config.client = "anthropic" →
      modelOr p.llm_config.model st.anthropic_model = some m →
      ∃ o, run_ai_completion st p net = Except.ok (AIResult.output o)) ∧
    (p.llm_config.client ≠ "openai" → p.llm_config.client ≠ "anthropic" →
      run_ai_completion st p net = Except.ok (AIResult.invalidVendor "Invalid AI vendor")) ∧
    (p.llm_config.client ≠ "openai" → p.llm_config.client ≠ "anthropic" →
      run_ai_tool_completion st p net =
        Except.error "ValueError: Unsupported client for tool completion") := by
  refine ⟨?_, ?_, ?_, ?_⟩
  · intro k hk hcl
    obtain ⟨o, ho⟩ := run_openai_completion_ok st p net
    exact ⟨o, by simp [run_ai_completion, hcl, hk, ho, Except.map]⟩
  · intro k m hk hcl hm
    obtain ⟨o, ho⟩ := run_anthropic_completion_ok st p net m hm
    exact ⟨o, by simp [run_ai_completion, hcl, hk, ho, Except.map]⟩
  · intro h1 h2
    simp [run_ai_completion, h1, h2]
  · intro h1 h2
    simp [run_ai_tool_completion, h1, h2]

/-- C8 amended witness: the configured OpenAI path at a concrete state and
prompt returns a normalized output. -/
theorem C8_amended_witness :
    ∃ o, run_ai_completion sampleAIState samplePromptO (Except.ok Json.null) =
      Except.ok (AIResult.output o) :=
  (C8_amended_no_escape_when_configured sampleAIState samplePromptO
    (Except.ok Json.null)).1 "sk-openai" rfl rfl

end LLMBooster
